import Mathlib

/-
Verification of the Cloud Command Gateway (deebot_client/api_client.py).

The gateway is embedded shallowly: decoded JSON replies become an inductive
Json type, Python dictionaries become association lists in insertion order,
fallible Python code (KeyError, AttributeError/TypeError, raised ApiError)
becomes Except over an explicit error type, and the three public operations
of ApiClient become pure functions of the decoded response (their transport
and authentication collaborators are abstracted as parameters, as the spec
treats them as external collaborators).
-/

set_option autoImplicit false

namespace DeebotClient

/-- Decoded JSON values as delivered to the gateway by the transport
collaborator. Booleans and floating point numbers are not modelled: the
vendor replies relevant to the gateway carry null, integers, strings,
arrays and objects, and the one float the gateway itself produces (the
envelope timestamp) is injected as an opaque value. -/
inductive Json where
  | null : Json
  | int (n : Int) : Json
  | str (s : String) : Json
  | arr (elems : List Json) : Json
  | obj (fields : List (String × Json)) : Json

/-- Decoded JSON object, modelling a Python dict: an association list whose
keys are unique and kept in insertion order. -/
abbrev JObj := List (String × Json)

/-- Dictionary lookup, modelling both d.get(k) (with the none result for a
missing key standing for the default None) and d[k] (where the none result
stands for a raised KeyError at the use site). -/
def jsonGet : JObj → String → Option Json
  | [], _ => none
  | (k, v) :: rest, key => if k = key then some v else jsonGet rest key

/-- Python dict assignment d[k] = v: an existing key keeps its position and
gets the new value, a new key is appended at the end. -/
def jobjInsert : JObj → String → Json → JObj
  | [], k, v => [(k, v)]
  | (k0, v0) :: rest, k, v =>
    if k0 = k then (k, v) :: rest else (k0, v0) :: jobjInsert rest k v

/-- Python dict.update, assigning every pair of the argument in order. -/
def jobjUpdate (o : JObj) (kvs : List (String × Json)) : JObj :=
  kvs.foldl (fun acc kv => jobjInsert acc kv.1 kv.2) o

/-- Python repr of a decoded JSON value: None, decimal integers, quoted
strings, bracketed lists and braced dicts. -/
def pyRepr : Json → String
  | .null => "None"
  | .int n => toString n
  | .str s => "\x27" ++ s ++ "\x27"
  | .arr elems =>
    "[" ++ String.intercalate ", " (elems.attach.map fun e => pyRepr e.1) ++ "]"
  | .obj fields =>
    "\x7b" ++
      String.intercalate ", "
        (fields.attach.map fun kv => "\x27" ++ kv.1.1 ++ "\x27: " ++ pyRepr kv.1.2) ++
      "\x7d"
decreasing_by
  · have h := List.sizeOf_lt_of_mem e.2
    simp only [Json.arr.sizeOf_spec]
    omega
  · have h := List.sizeOf_lt_of_mem kv.2
    have h2 : sizeOf kv.1 = 1 + sizeOf kv.1.1 + sizeOf kv.1.2 := by
      obtain ⟨⟨k, v⟩, hm⟩ := kv
      simp
    simp only [Json.obj.sizeOf_spec]
    omega

/-- Python str of a decoded JSON value, as used by f-string interpolation:
like repr except that a string stays unquoted. -/
def pyStr : Json → String
  | .str s => s
  | v => pyRepr v

/-- Failure outcomes of the gateway operations: a raised ApiError with its
message, a raised KeyError naming the missing key, and a raised
TypeError/AttributeError from using a value of the wrong shape. -/
inductive PyErr where
  | apiError (msg : String)
  | keyError (key : String)
  | typeError
deriving DecidableEq

/-- Failure path shared verbatim by get_devices (line 61) and
get_product_iot_map (lines 78 and 79): evaluate the error and errno entries
of the response (a missing one raises KeyError, error first) and raise
ApiError with the f-string message failure E (N) on WHAT, where E and N are
the str renderings of the two values. -/
def raise_failure {α : Type} (resp : JObj) (what : String) : Except PyErr α :=
  match jsonGet resp "error" with
  | none => .error (.keyError "error")
  | some e =>
    match jsonGet resp "errno" with
    | none => .error (.keyError "errno")
    | some n =>
      .error (.apiError ("failure " ++ pyStr e ++ " (" ++ pyStr n ++ ") on " ++ what))

/-- Success test of get_devices, line 52: resp.get with default None
compared to the integer 0. Only the integer 0 passes; a missing key (None)
or any string fails. -/
def isIntZero : Option Json → Bool
  | some (.int n) => n == 0
  | _ => false

/-- Success test of get_product_iot_map, line 71: resp.get with default
None, membership in the two element list holding the integer 0 and the
string 0000. -/
def code_ok_pim : Option Json → Bool
  | some (.int n) => n == 0
  | some (.str s) => s == "0000"
  | _ => false

/-- Modelled from the spec: DeviceInfo (module models, which is not under
src) wraps the raw device mapping returned by the device list endpoint and
exposes the device identifier, the resource identifier and the device class
token read from that mapping. -/
structure DeviceInfo where
  raw : JObj

/-- Device identifier of a DeviceInfo, read from the raw mapping. -/
def DeviceInfo.did (d : DeviceInfo) : Json := (jsonGet d.raw "did").getD Json.null

/-- Resource identifier of a DeviceInfo, read from the raw mapping. -/
def DeviceInfo.resource (d : DeviceInfo) : Json :=
  (jsonGet d.raw "resource").getD Json.null

/-- Device class token of a DeviceInfo, read from the raw mapping. -/
def DeviceInfo.get_class (d : DeviceInfo) : Json :=
  (jsonGet d.raw "class").getD Json.null

/-- Modelled from the spec: a command descriptor is a name together with an
ordered, possibly empty sequence of argument values; the gateway is
agnostic to which concrete command variant it receives. -/
structure Command where
  name : String
  args : List Json

/-- Modelled from the spec: the authenticated session snapshot, exposing at
minimum the user identifier. -/
structure Credentials where
  user_id : String

/-- Modelled from the spec: the account region descriptor holding a
continent code and a two letter country code. -/
structure Configuration where
  continent : String
  country : String

/-- Modelled from the spec: the reserved log retrieval command name
(commands.GetCleanLogs, which is not under src). The claims depend only on
equality of a command name with this constant, not on its spelling. -/
def GetCleanLogs_name : String := "GetCleanLogs"

/-- Modelled from the spec: fixed device list endpoint path (module const,
which is not under src). The claims depend only on which constant a branch
selects, not on the route spelling. -/
def PATH_API_APPSVR_APP : String := "appsvr/app.do"

/-- Modelled from the spec: fixed product map endpoint path (module const,
which is not under src). -/
def PATH_API_PIM_PRODUCT_IOT_MAP : String := "pim/product/getProductIotMap"

/-- Modelled from the spec: fixed log service endpoint path (module const,
which is not under src). -/
def PATH_API_LG_LOG : String := "lg/log.do"

/-- Modelled from the spec: fixed device management endpoint path (module
const, which is not under src). -/
def PATH_API_IOT_DEVMANAGER : String := "iot/devmanager.do"

/-- Fixed request headers sent by send_command, lines 22 to 24. -/
def REQUEST_HEADERS : List (String × String) :=
  [("User-Agent", "Dalvik/2.1.0 (Linux; U; Android 5.1.1; A5010 Build/LMY48Z)")]

/-- Company test of the device loop, line 54: device.get compared to the
vendor tag eco-ng. -/
def isEcoNg (o : JObj) : Bool :=
  match jsonGet o "company" with
  | some (.str s) => s == "eco-ng"
  | _ => false

/-- Device filtering loop of get_devices, lines 53 to 58: iterate the
devices array in server order, wrap every entry whose company equals eco-ng
in a DeviceInfo, silently skip the others. An entry that is not an object
raises at the device.get call (modelled as typeError); a devices value that
is not an array is likewise modelled as typeError. -/
def collect_devices : List Json → Except PyErr (List DeviceInfo)
  | [] => .ok []
  | d :: ds =>
    match d with
    | .obj o =>
      if isEcoNg o then
        match collect_devices ds with
        | .ok rest => .ok (DeviceInfo.mk o :: rest)
        | .error e => .error e
      else collect_devices ds
    | _ => .error .typeError

/-- Response handling of ApiClient.get_devices, lines 52 to 61: on code
equal to the integer 0, filter the devices array into DeviceInfo records;
otherwise raise through the shared failure path with description getting
devices. -/
def get_devices (resp : JObj) : Except PyErr (List DeviceInfo) :=
  if isIntZero (jsonGet resp "code") then
    match jsonGet resp "devices" with
    | some (.arr ds) => collect_devices ds
    | some _ => .error .typeError
    | none => .error (.keyError "devices")
  else raise_failure resp "getting devices"

/-- Folding loop of get_product_iot_map, lines 72 to 75: assign
result[entry[classid]] = entry[product] for every entry in order, last
write wins. A missing classid or product raises KeyError; an entry that is
not an object, or a classid that is not a string key, is modelled as
typeError. -/
def collect_product_map : List Json → JObj → Except PyErr JObj
  | [], acc => .ok acc
  | e :: es, acc =>
    match e with
    | .obj o =>
      match jsonGet o "classid" with
      | some (.str cid) =>
        match jsonGet o "product" with
        | some p => collect_product_map es (jobjInsert acc cid p)
        | none => .error (.keyError "product")
      | some _ => .error .typeError
      | none => .error (.keyError "classid")
    | _ => .error .typeError

/-- Response handling of ApiClient.get_product_iot_map, lines 71 to 79: on
code equal to the integer 0 or the string 0000, fold the data array into a
classid to product mapping; otherwise raise through the shared failure path
with description getting product iot map. -/
def get_product_iot_map (resp : JObj) : Except PyErr JObj :=
  if code_ok_pim (jsonGet resp "code") then
    match jsonGet resp "data" with
    | some (.arr entries) => collect_product_map entries []
    | some _ => .error .typeError
    | none => .error (.keyError "data")
  else raise_failure resp "getting product iot map"

/-- Request body posted by get_devices, lines 44 to 47. -/
def get_devices_body (credentials : Credentials) : JObj :=
  [("userid", Json.str credentials.user_id), ("todo", Json.str "GetGlobalDeviceList")]

/-- Outgoing request assembled by send_command: endpoint path, JSON body,
query parameters and headers handed to the transport post call. -/
structure CommandRequest where
  path : String
  json : JObj
  query_params : JObj
  headers : List (String × String)

/-- Request construction of ApiClient.send_command, lines 88 to 133. The
branch on the command name yields the body, the path and the initial query
parameters (empty for the log branch; mid and did, read back from the body,
for the generic branch); afterwards both branches update the query
parameters with td read back from the body, the user identifier and the
three static client identity values. The envelope timestamp, a float
produced by datetime.now, is injected as the opaque value ts. -/
def send_command_request (command : Command) (device_info : DeviceInfo)
    (ts : Json) (credentials : Credentials) : CommandRequest :=
  let branch : JObj × String × JObj :=
    if command.name = GetCleanLogs_name then
      ([("td", Json.str command.name), ("did", device_info.did),
        ("resource", device_info.resource)],
       PATH_API_LG_LOG, ([] : JObj))
    else
      let payload0 : JObj :=
        [("header", Json.obj [("pri", Json.str "1"), ("ts", ts),
          ("tzm", Json.int 480), ("ver", Json.str "0.0.50")])]
      let payload : JObj :=
        if 0 < command.args.length then
          jobjInsert payload0 "body" (Json.obj [("data", Json.arr command.args)])
        else payload0
      let json : JObj :=
        [("cmdName", Json.str command.name), ("payload", Json.obj payload),
         ("payloadType", Json.str "j"), ("td", Json.str "q"),
         ("toId", device_info.did), ("toRes", device_info.resource),
         ("toType", device_info.get_class)]
      (json, PATH_API_IOT_DEVMANAGER,
       jobjUpdate [] [("mid", (jsonGet json "toType").getD Json.null),
                      ("did", (jsonGet json "toId").getD Json.null)])
  let json := branch.1
  let path := branch.2.1
  let query_params :=
    jobjUpdate branch.2.2
      [("td", (jsonGet json "td").getD Json.null),
       ("u", Json.str credentials.user_id),
       ("cv", Json.str "1.67.3"), ("t", Json.str "a"), ("av", Json.str "1.3.1")]
  CommandRequest.mk path json query_params REQUEST_HEADERS

/-- ApiClient.send_command, lines 82 to 141, with the transport abstracted
as the function post: build the request, post it, and return the decoded
reply unchanged; no validation and no raise happens in this operation. -/
def send_command (command : Command) (device_info : DeviceInfo) (ts : Json)
    (credentials : Credentials) (post : CommandRequest → JObj) : Except PyErr JObj :=
  Except.ok (post (send_command_request command device_info ts credentials))

/-- Steps of a gateway operation whose relative order the spec talks about:
acquiring the credentials snapshot, building the request body, invoking the
transport, validating the response. -/
inductive GatewayEvent where
  | authenticate : GatewayEvent
  | buildRequest : GatewayEvent
  | post : GatewayEvent
  | validate : GatewayEvent
deriving DecidableEq

/-- Step a happens strictly before step b in the trace. -/
abbrev eventsBefore (tr : List GatewayEvent) (a b : GatewayEvent) : Prop :=
  tr.indexOf a < tr.indexOf b

/-- Statement order of the steps of ApiClient.get_devices: authenticate
(line 43), build the request body from the credentials (lines 44 to 47),
post (lines 48 to 50), validate (lines 52 to 61). -/
def get_devices_events : List GatewayEvent :=
  [.authenticate, .buildRequest, .post, .validate]

/-- Statement order of the steps of ApiClient.get_product_iot_map (lines 65
to 79): the empty body literal is an argument evaluated before the
credentials keyword argument, so building precedes authentication, then the
post call runs and the response is validated. -/
def get_product_iot_map_events : List GatewayEvent :=
  [.buildRequest, .authenticate, .post, .validate]

/-- Statement order of the steps of ApiClient.send_command: the body, path
and initial query parameters are built first (lines 88 to 122), credentials
are acquired afterwards (line 124), then the post call runs (lines 135 to
141); no validation step exists. -/
def send_command_events : List GatewayEvent :=
  [.buildRequest, .authenticate, .post]

/-- Character list starts with the given pattern. -/
def charsStartWith : List Char → List Char → Bool
  | _, [] => true
  | [], _ :: _ => false
  | c :: cs, p :: ps => c == p && charsStartWith cs ps

/-- Character list contains the given pattern somewhere. -/
def charsContains : List Char → List Char → Bool
  | [], pat => pat.isEmpty
  | c :: cs, pat => charsStartWith (c :: cs) pat || charsContains cs pat

/-- Model of urllib.parse.urljoin (a standard library collaborator) for the
reference shapes that can reach it here: a reference with a scheme marker
is taken whole, a host relative reference starting with a slash replaces
everything after the authority, and a plain relative reference replaces
everything after the last slash of the base. Dot segment normalization and
query and fragment handling are not modelled. -/
def hasScheme (rel : String) : Bool :=
  charsContains rel.data "://".data

/-- Split of a character list at every slash. -/
def charsSplitSlash : List Char → List (List Char)
  | [] => [[]]
  | c :: cs =>
    match charsSplitSlash cs with
    | [] => [[]]
    | seg :: rest => if c = '/' then [] :: seg :: rest else (c :: seg) :: rest

/-- Scheme and authority of an absolute URL: everything up to and excluding
the third slash. -/
def schemeAuthority (url : String) : String :=
  match charsSplitSlash url.data with
  | scheme :: [] :: host :: _ => String.mk scheme ++ "//" ++ String.mk host
  | _ => url

/-- Base URL with everything after its last slash removed. -/
def dropLastSegment (s : String) : String :=
  String.mk ((s.data.reverse.dropWhile (fun c => c != '/')).reverse)

/-- Join of a base URL and a reference, in the manner of
urllib.parse.urljoin on the modelled reference shapes. -/
def urljoin (base rel : String) : String :=
  if rel = "" then base
  else if hasScheme rel then rel
  else if charsStartWith rel.data "/".data then schemeAuthority base ++ rel
  else dropLastSegment base ++ rel

/-- Portal URL resolver, lines 27 to 29: subdomain portal for country cn,
portal dash continent otherwise, joined with the path under the ecouser.net
api base. -/
def _get_portal_url (config : Configuration) (path : String) : String :=
  urljoin
    ("https://" ++
      (if config.country ≠ "cn" then "portal-" ++ config.continent else "portal") ++
      ".ecouser.net/api/")
    path

/-- Success test of get_devices in propositional form. -/
theorem isIntZero_iff (x : Option Json) :
    isIntZero x = true ↔ x = some (Json.int 0) := by
  cases x with
  | none => simp [isIntZero]
  | some v => cases v <;> simp [isIntZero]

/-- Success test of get_product_iot_map in propositional form. -/
theorem code_ok_pim_iff (x : Option Json) :
    code_ok_pim x = true ↔ x = some (Json.int 0) ∨ x = some (Json.str "0000") := by
  cases x with
  | none => simp [code_ok_pim]
  | some v => cases v <;> simp [code_ok_pim]

/-- Shared failure path never returns a success value: it always raises
either ApiError or a KeyError. -/
theorem raise_failure_ne_ok {α : Type} (resp : JObj) (what : String) (x : α) :
    raise_failure resp what ≠ Except.ok x := by
  unfold raise_failure
  cases jsonGet resp "error" with
  | none => simp
  | some e =>
    cases jsonGet resp "errno" with
    | none => simp
    | some n => simp

/-- Device loop on a list of objects: the result is exactly the company
filtered sublist, wrapped into DeviceInfo records in order. -/
theorem collect_devices_map_obj (entries : List JObj) :
    collect_devices (entries.map Json.obj) =
      Except.ok ((entries.filter isEcoNg).map DeviceInfo.mk) := by
  induction entries with
  | nil => rfl
  | cons o os ih =>
    by_cases h : isEcoNg o <;> simp [collect_devices, List.filter_cons, h, ih]

/-- Product map loop on a list of objects with well formed classid and
product entries always succeeds. -/
theorem collect_product_map_ok (entries : List JObj) (acc : JObj)
    (h : ∀ o ∈ entries,
      (∃ cid, jsonGet o "classid" = some (Json.str cid)) ∧
      ∃ p, jsonGet o "product" = some p) :
    ∃ m, collect_product_map (entries.map Json.obj) acc = Except.ok m := by
  induction entries generalizing acc with
  | nil => exact ⟨acc, rfl⟩
  | cons o os ih =>
    obtain ⟨⟨cid, hc⟩, ⟨p, hp⟩⟩ := h o (List.mem_cons_self o os)
    have step :
        collect_product_map (Json.obj o :: os.map Json.obj) acc =
          collect_product_map (os.map Json.obj) (jobjInsert acc cid p) := by
      simp [collect_product_map, hc, hp]
    rw [List.map_cons, step]
    exact ih (jobjInsert acc cid p) (fun o' ho' => h o' (List.mem_cons_of_mem o ho'))

/-- Claim C1: for every device list response whose code equals 0,
get_devices returns DeviceInfo records for exactly the entries of the
devices array whose company field equals eco-ng, in server order, wrapping
the raw entries so that the did, resource and class fields match; every
entry with a different company is excluded. -/
theorem c1_device_filter (resp : JObj) (entries : List JObj)
    (hcode : jsonGet resp "code" = some (Json.int 0))
    (hdev : jsonGet resp "devices" = some (Json.arr (entries.map Json.obj))) :
    get_devices resp = Except.ok ((entries.filter isEcoNg).map DeviceInfo.mk) ∧
    ∀ o : JObj,
      (DeviceInfo.mk o).did = (jsonGet o "did").getD Json.null ∧
      (DeviceInfo.mk o).resource = (jsonGet o "resource").getD Json.null ∧
      (DeviceInfo.mk o).get_class = (jsonGet o "class").getD Json.null := by
  constructor
  · have hz : isIntZero (jsonGet resp "code") = true := (isIntZero_iff _).mpr hcode
    simp [get_devices, hz, hdev, collect_devices_map_obj]
  · intro o
    exact ⟨rfl, rfl, rfl⟩

/-- Witness for C1, the end to end scenario of the spec: two devices, one
with company eco-ng and one with company other, yield a one element list. -/
theorem c1_device_filter_witness :
    get_devices
      [("code", Json.int 0),
       ("devices", Json.arr
         [Json.obj [("did", Json.str "d1"), ("resource", Json.str "r1"),
                    ("company", Json.str "eco-ng"), ("class", Json.str "c1")],
          Json.obj [("did", Json.str "d2"), ("resource", Json.str "r2"),
                    ("company", Json.str "other")]])] =
      Except.ok [DeviceInfo.mk
        [("did", Json.str "d1"), ("resource", Json.str "r1"),
         ("company", Json.str "eco-ng"), ("class", Json.str "c1")]] :=
  (c1_device_filter
    [("code", Json.int 0),
     ("devices", Json.arr
       [Json.obj [("did", Json.str "d1"), ("resource", Json.str "r1"),
                  ("company", Json.str "eco-ng"), ("class", Json.str "c1")],
        Json.obj [("did", Json.str "d2"), ("resource", Json.str "r2"),
                  ("company", Json.str "other")]])]
    [[("did", Json.str "d1"), ("resource", Json.str "r1"),
      ("company", Json.str "eco-ng"), ("class", Json.str "c1")],
     [("did", Json.str "d2"), ("resource", Json.str "r2"),
      ("company", Json.str "other")]] rfl rfl).1

/-- Claim C6: for every device list response whose code is not the integer
0 and which carries error and errno entries, get_devices raises ApiError
with message failure E (N) on getting devices, where E and N are the str
renderings of the error and errno values read directly from the
response. -/
theorem c6_device_failure_message (resp : JObj) (e n : Json)
    (hcode : jsonGet resp "code" ≠ some (Json.int 0))
    (herr : jsonGet resp "error" = some e)
    (hn : jsonGet resp "errno" = some n) :
    get_devices resp =
      Except.error (PyErr.apiError
        ("failure " ++ pyStr e ++ " (" ++ pyStr n ++ ") on getting devices")) := by
  have hz : isIntZero (jsonGet resp "code") = false := by
    cases hh : isIntZero (jsonGet resp "code") with
    | false => rfl
    | true => exact absurd ((isIntZero_iff _).mp hh) hcode
  simp [get_devices, hz, raise_failure, herr, hn, String.append_assoc]

/-- Witness for C6, the end to end scenario of the spec: code 1, error bad,
errno 500 yield the exact message failure bad (500) on getting devices. -/
theorem c6_device_failure_message_witness :
    get_devices [("code", Json.int 1), ("error", Json.str "bad"), ("errno", Json.int 500)] =
      Except.error (PyErr.apiError "failure bad (500) on getting devices") := by
  have h := c6_device_failure_message
    [("code", Json.int 1), ("error", Json.str "bad"), ("errno", Json.int 500)]
    (Json.str "bad") (Json.int 500) (by simp [jsonGet]) rfl rfl
  rw [h]
  have hm : ("failure " ++ pyStr (Json.str "bad") ++ " (" ++ pyStr (Json.int 500) ++
      ") on getting devices") = "failure bad (500) on getting devices" := by
    simp only [pyStr, pyRepr]
    decide
  rw [hm]

/-- Claim C10: a response with no code entry at all is handled by
get_devices and get_product_iot_map exactly through the same failure branch
as a non success code, attempting to raise ApiError from the error and
errno entries of the response; it is never treated as success. -/
theorem c10_missing_code_failure (resp : JObj)
    (h : jsonGet resp "code" = none) :
    get_devices resp = raise_failure resp "getting devices" ∧
    get_product_iot_map resp = raise_failure resp "getting product iot map" ∧
    (∀ ds, get_devices resp ≠ Except.ok ds) ∧
    (∀ m, get_product_iot_map resp ≠ Except.ok m) := by
  have h1 : get_devices resp = raise_failure resp "getting devices" := by
    simp [get_devices, h, isIntZero]
  have h2 : get_product_iot_map resp = raise_failure resp "getting product iot map" := by
    simp [get_product_iot_map, h, code_ok_pim]
  refine ⟨h1, h2, ?_, ?_⟩
  · intro ds
    rw [h1]
    exact raise_failure_ne_ok resp "getting devices" ds
  · intro m
    rw [h2]
    exact raise_failure_ne_ok resp "getting product iot map" m

/-- Witness for C10: a response carrying only error and errno, with no code
entry, goes through the shared failure branch in both operations. -/
theorem c10_missing_code_failure_witness :
    get_devices [("error", Json.str "e"), ("errno", Json.int 1)] =
      raise_failure [("error", Json.str "e"), ("errno", Json.int 1)] "getting devices" ∧
    get_product_iot_map [("error", Json.str "e"), ("errno", Json.int 1)] =
      raise_failure [("error", Json.str "e"), ("errno", Json.int 1)] "getting product iot map" ∧
    (∀ ds, get_devices [("error", Json.str "e"), ("errno", Json.int 1)] ≠ Except.ok ds) ∧
    (∀ m, get_product_iot_map [("error", Json.str "e"), ("errno", Json.int 1)] ≠ Except.ok m) :=
  c10_missing_code_failure [("error", Json.str "e"), ("errno", Json.int 1)] rfl

/-- Claim C2: get_product_iot_map succeeds exactly when the code entry is
the integer 0 or the string 0000 (given that the data payload guaranteed by
the response contract is a well formed array); for any other code value it
raises ApiError whose message carries the error and errno values of the
response. -/
theorem c2_product_map_success_codes (resp : JObj) :
    ((∃ m, get_product_iot_map resp = Except.ok m) →
      jsonGet resp "code" = some (Json.int 0) ∨
      jsonGet resp "code" = some (Json.str "0000")) ∧
    (∀ entries : List JObj,
      jsonGet resp "data" = some (Json.arr (entries.map Json.obj)) →
      (∀ o ∈ entries,
        (∃ cid, jsonGet o "classid" = some (Json.str cid)) ∧
        ∃ p, jsonGet o "product" = some p) →
      (jsonGet resp "code" = some (Json.int 0) ∨
        jsonGet resp "code" = some (Json.str "0000")) →
      ∃ m, get_product_iot_map resp = Except.ok m) ∧
    (∀ e n,
      ¬(jsonGet resp "code" = some (Json.int 0) ∨
        jsonGet resp "code" = some (Json.str "0000")) →
      jsonGet resp "error" = some e → jsonGet resp "errno" = some n →
      get_product_iot_map resp =
        Except.error (PyErr.apiError
          ("failure " ++ pyStr e ++ " (" ++ pyStr n ++
            ") on getting product iot map"))) := by
  refine ⟨?_, ?_, ?_⟩
  · rintro ⟨m, hm⟩
    by_cases hc : code_ok_pim (jsonGet resp "code") = true
    · exact (code_ok_pim_iff _).mp hc
    · exfalso
      have hcF : code_ok_pim (jsonGet resp "code") = false := by
        cases hcc : code_ok_pim (jsonGet resp "code") with
        | false => rfl
        | true => exact absurd hcc hc
      rw [get_product_iot_map, hcF] at hm
      exact raise_failure_ne_ok resp "getting product iot map" m hm
  · intro entries hdata hwf hc
    have hcT : code_ok_pim (jsonGet resp "code") = true := (code_ok_pim_iff _).mpr hc
    obtain ⟨m, hm⟩ := collect_product_map_ok entries [] hwf
    exact ⟨m, by simp [get_product_iot_map, hcT, hdata, hm]⟩
  · intro e n hc herr hn
    have hcF : code_ok_pim (jsonGet resp "code") = false := by
      cases hcc : code_ok_pim (jsonGet resp "code") with
      | false => rfl
      | true => exact absurd ((code_ok_pim_iff _).mp hcc) hc
    simp [get_product_iot_map, hcF, raise_failure, herr, hn, String.append_assoc]

/-- Witness for C2: a response with the string code 0000 and a well formed
data array succeeds, and a response with code 2 raises ApiError carrying
error and errno in the message. -/
theorem c2_product_map_success_codes_witness :
    (∃ m, get_product_iot_map
      [("code", Json.str "0000"),
       ("data", Json.arr [Json.obj [("classid", Json.str "c"), ("product", Json.str "p")]])] =
      Except.ok m) ∧
    get_product_iot_map
      [("code", Json.int 2), ("error", Json.str "oops"), ("errno", Json.str "E1")] =
      Except.error (PyErr.apiError "failure oops (E1) on getting product iot map") := by
  constructor
  · exact (c2_product_map_success_codes
      [("code", Json.str "0000"),
       ("data", Json.arr [Json.obj [("classid", Json.str "c"), ("product", Json.str "p")]])]).2.1
      [[("classid", Json.str "c"), ("product", Json.str "p")]] rfl
      (by
        intro o ho
        simp only [List.mem_singleton] at ho
        subst ho
        exact ⟨⟨"c", rfl⟩, ⟨Json.str "p", rfl⟩⟩)
      (Or.inr rfl)
  · have h := (c2_product_map_success_codes
      [("code", Json.int 2), ("error", Json.str "oops"), ("errno", Json.str "E1")]).2.2
      (Json.str "oops") (Json.str "E1") (by simp [jsonGet]) rfl rfl
    rw [h]
    have hm : ("failure " ++ pyStr (Json.str "oops") ++ " (" ++ pyStr (Json.str "E1") ++
        ") on getting product iot map") = "failure oops (E1) on getting product iot map" := by
      simp only [pyStr]
      decide
    rw [hm]

/-- Claim C7: for every command, device, credentials and transport reply,
send_command returns the decoded response body unchanged and never raises
any error itself, whatever the code entry of the reply may be; validation
happens only in get_devices and get_product_iot_map. -/
theorem c7_send_command_no_validation (command : Command) (device_info : DeviceInfo)
    (ts : Json) (credentials : Credentials) (post : CommandRequest → JObj) :
    send_command command device_info ts credentials post =
      Except.ok (post (send_command_request command device_info ts credentials)) ∧
    ∀ err : PyErr, send_command command device_info ts credentials post ≠ Except.error err := by
  refine ⟨rfl, ?_⟩
  intro err h
  simp [send_command] at h

/-- Counterexample to claim C8: in send_command the envelope body is built
before the credentials snapshot is acquired, so the claimed order acquire
credentials then build the body fails for this operation. -/
theorem c8_counterexample :
    ¬ eventsBefore send_command_events GatewayEvent.authenticate GatewayEvent.buildRequest := by
  decide

/-- Claim C8 as amended: get_devices acquires credentials before building
its body, but get_product_iot_map and send_command build the body before
acquiring credentials; in all three operations the transport invocation
follows both, and validation, where performed at all, comes last
(send_command has no validation step). -/
theorem c8_event_order :
    (eventsBefore get_devices_events GatewayEvent.authenticate GatewayEvent.buildRequest ∧
     eventsBefore get_devices_events GatewayEvent.buildRequest GatewayEvent.post ∧
     eventsBefore get_devices_events GatewayEvent.post GatewayEvent.validate) ∧
    (eventsBefore get_product_iot_map_events GatewayEvent.buildRequest GatewayEvent.authenticate ∧
     eventsBefore get_product_iot_map_events GatewayEvent.authenticate GatewayEvent.post ∧
     eventsBefore get_product_iot_map_events GatewayEvent.post GatewayEvent.validate) ∧
    (eventsBefore send_command_events GatewayEvent.buildRequest GatewayEvent.authenticate ∧
     eventsBefore send_command_events GatewayEvent.authenticate GatewayEvent.post ∧
     send_command_events.indexOf GatewayEvent.validate = send_command_events.length) := by
  decide

/-- Request produced by the log retrieval branch of send_command, written
out as an explicit record. -/
theorem send_command_request_log_eq (command : Command) (device_info : DeviceInfo)
    (ts : Json) (credentials : Credentials) (h : command.name = GetCleanLogs_name) :
    send_command_request command device_info ts credentials =
      CommandRequest.mk PATH_API_LG_LOG
        [("td", Json.str command.name), ("did", device_info.did),
         ("resource", device_info.resource)]
        [("td", Json.str command.name), ("u", Json.str credentials.user_id),
         ("cv", Json.str "1.67.3"), ("t", Json.str "a"), ("av", Json.str "1.3.1")]
        REQUEST_HEADERS := by
  simp [send_command_request, h, jobjUpdate, jobjInsert, jsonGet]

/-- Request produced by the generic branch of send_command, written out as
an explicit record with the payload abstracted. -/
theorem send_command_request_generic_eq (command : Command) (device_info : DeviceInfo)
    (ts : Json) (credentials : Credentials) (h : ¬ command.name = GetCleanLogs_name) :
    ∃ pl : JObj,
      send_command_request command device_info ts credentials =
        CommandRequest.mk PATH_API_IOT_DEVMANAGER
          [("cmdName", Json.str command.name), ("payload", Json.obj pl),
           ("payloadType", Json.str "j"), ("td", Json.str "q"),
           ("toId", device_info.did), ("toRes", device_info.resource),
           ("toType", device_info.get_class)]
          [("mid", device_info.get_class), ("did", device_info.did),
           ("td", Json.str "q"), ("u", Json.str credentials.user_id),
           ("cv", Json.str "1.67.3"), ("t", Json.str "a"), ("av", Json.str "1.3.1")]
          REQUEST_HEADERS ∧
      jsonGet pl "header" =
        some (Json.obj [("pri", Json.str "1"), ("ts", ts), ("tzm", Json.int 480),
                        ("ver", Json.str "0.0.50")]) ∧
      (command.args = [] → jsonGet pl "body" = none) ∧
      (command.args ≠ [] →
        jsonGet pl "body" = some (Json.obj [("data", Json.arr command.args)])) := by
  cases hargs : command.args with
  | nil =>
    refine ⟨[("header", Json.obj [("pri", Json.str "1"), ("ts", ts), ("tzm", Json.int 480),
      ("ver", Json.str "0.0.50")])], ?_, rfl, fun _ => rfl, fun hne => absurd rfl hne⟩
    simp [send_command_request, h, hargs, jobjUpdate, jobjInsert, jsonGet]
  | cons a as =>
    refine ⟨[("header", Json.obj [("pri", Json.str "1"), ("ts", ts), ("tzm", Json.int 480),
      ("ver", Json.str "0.0.50")]),
      ("body", Json.obj [("data", Json.arr (a :: as))])], ?_, rfl,
      fun h0 => absurd h0 (List.cons_ne_nil a as),
      fun _ => rfl⟩
    simp [send_command_request, h, hargs, jobjUpdate, jobjInsert, jsonGet]

/-- Claim C3: send_command selects exactly one of two envelope shapes by
whether the command name equals the reserved log retrieval name: on
equality the body keys are exactly td, did and resource and the request
uses the log service path; otherwise the body carries cmdName equal to the
command name, payloadType j, td q, toId, toRes and toType from the device,
and a payload block with a header, and the request uses the device
management path. -/
theorem c3_envelope_branches (command : Command) (device_info : DeviceInfo)
    (ts : Json) (credentials : Credentials) :
    (command.name = GetCleanLogs_name →
      (send_command_request command device_info ts credentials).json.map Prod.fst =
        ["td", "did", "resource"] ∧
      (send_command_request command device_info ts credentials).path = PATH_API_LG_LOG) ∧
    (command.name ≠ GetCleanLogs_name →
      jsonGet (send_command_request command device_info ts credentials).json "cmdName" =
        some (Json.str command.name) ∧
      jsonGet (send_command_request command device_info ts credentials).json "payloadType" =
        some (Json.str "j") ∧
      jsonGet (send_command_request command device_info ts credentials).json "td" =
        some (Json.str "q") ∧
      jsonGet (send_command_request command device_info ts credentials).json "toId" =
        some device_info.did ∧
      jsonGet (send_command_request command device_info ts credentials).json "toRes" =
        some device_info.resource ∧
      jsonGet (send_command_request command device_info ts credentials).json "toType" =
        some device_info.get_class ∧
      (∃ pl hd,
        jsonGet (send_command_request command device_info ts credentials).json "payload" =
          some (Json.obj pl) ∧
        jsonGet pl "header" = some hd) ∧
      (send_command_request command device_info ts credentials).path =
        PATH_API_IOT_DEVMANAGER) := by
  constructor
  · intro h
    rw [send_command_request_log_eq command device_info ts credentials h]
    exact ⟨rfl, rfl⟩
  · intro h
    obtain ⟨pl, heq, hhdr, _, _⟩ :=
      send_command_request_generic_eq command device_info ts credentials h
    rw [heq]
    exact ⟨rfl, rfl, rfl, rfl, rfl, rfl,
      ⟨pl, Json.obj [("pri", Json.str "1"), ("ts", ts), ("tzm", Json.int 480),
        ("ver", Json.str "0.0.50")], rfl, hhdr⟩, rfl⟩

/-- Witness for C3: both branches at concrete inputs, the log retrieval
command and an ordinary command. -/
theorem c3_envelope_branches_witness :
    ((send_command_request (Command.mk "GetCleanLogs" []) (DeviceInfo.mk [])
        Json.null (Credentials.mk "U")).json.map Prod.fst = ["td", "did", "resource"] ∧
     (send_command_request (Command.mk "GetCleanLogs" []) (DeviceInfo.mk [])
        Json.null (Credentials.mk "U")).path = PATH_API_LG_LOG) ∧
    (send_command_request (Command.mk "Clean" []) (DeviceInfo.mk [])
        Json.null (Credentials.mk "U")).path = PATH_API_IOT_DEVMANAGER := by
  refine ⟨(c3_envelope_branches (Command.mk "GetCleanLogs" []) (DeviceInfo.mk [])
    Json.null (Credentials.mk "U")).1 rfl, ?_⟩
  exact ((c3_envelope_branches (Command.mk "Clean" []) (DeviceInfo.mk [])
    Json.null (Credentials.mk "U")).2 (by decide)).2.2.2.2.2.2.2

/-- Claim C4: in the generic envelope the payload carries a body key
exactly when the command arguments are non empty; when present,
payload.body.data equals the arguments, and for empty arguments the body
key is absent rather than empty. -/
theorem c4_payload_body_iff_args (command : Command) (device_info : DeviceInfo)
    (ts : Json) (credentials : Credentials) (h : command.name ≠ GetCleanLogs_name) :
    ∃ pl : JObj,
      jsonGet (send_command_request command device_info ts credentials).json "payload" =
        some (Json.obj pl) ∧
      (command.args = [] → jsonGet pl "body" = none) ∧
      (command.args ≠ [] →
        jsonGet pl "body" = some (Json.obj [("data", Json.arr command.args)])) := by
  obtain ⟨pl, heq, _, h0, h1⟩ :=
    send_command_request_generic_eq command device_info ts credentials h
  rw [heq]
  exact ⟨pl, rfl, h0, h1⟩

/-- Witness for C4: a command without arguments has no payload.body, a
command with one argument has payload.body.data equal to its argument
list. -/
theorem c4_payload_body_iff_args_witness :
    (∃ pl : JObj,
      jsonGet (send_command_request (Command.mk "Clean" []) (DeviceInfo.mk [])
        Json.null (Credentials.mk "U")).json "payload" = some (Json.obj pl) ∧
      jsonGet pl "body" = none) ∧
    (∃ pl : JObj,
      jsonGet (send_command_request (Command.mk "Clean" [Json.int 1]) (DeviceInfo.mk [])
        Json.null (Credentials.mk "U")).json "payload" = some (Json.obj pl) ∧
      jsonGet pl "body" = some (Json.obj [("data", Json.arr [Json.int 1])])) := by
  constructor
  · obtain ⟨pl, hp, h0, _⟩ := c4_payload_body_iff_args (Command.mk "Clean" [])
      (DeviceInfo.mk []) Json.null (Credentials.mk "U") (by decide)
    exact ⟨pl, hp, h0 rfl⟩
  · obtain ⟨pl, hp, _, h1⟩ := c4_payload_body_iff_args (Command.mk "Clean" [Json.int 1])
      (DeviceInfo.mk []) Json.null (Credentials.mk "U") (by decide)
    exact ⟨pl, hp, h1 (by simp)⟩

/-- Claim C5: every send_command call carries query parameters u equal to
the user identifier of the credentials, cv 1.67.3, t a and av 1.3.1, and td
equal to the td field of the body (the command name on the log branch, the
literal q on the generic branch); only the generic branch additionally
carries mid equal to the device class token and did equal to the device
identifier. -/
theorem c5_query_params (command : Command) (device_info : DeviceInfo)
    (ts : Json) (credentials : Credentials) :
    jsonGet (send_command_request command device_info ts credentials).query_params "u" =
      some (Json.str credentials.user_id) ∧
    jsonGet (send_command_request command device_info ts credentials).query_params "cv" =
      some (Json.str "1.67.3") ∧
    jsonGet (send_command_request command device_info ts credentials).query_params "t" =
      some (Json.str "a") ∧
    jsonGet (send_command_request command device_info ts credentials).query_params "av" =
      some (Json.str "1.3.1") ∧
    (command.name = GetCleanLogs_name →
      jsonGet (send_command_request command device_info ts credentials).query_params "td" =
        some (Json.str command.name) ∧
      jsonGet (send_command_request command device_info ts credentials).query_params "mid" =
        none ∧
      jsonGet (send_command_request command device_info ts credentials).query_params "did" =
        none) ∧
    (command.name ≠ GetCleanLogs_name →
      jsonGet (send_command_request command device_info ts credentials).query_params "td" =
        some (Json.str "q") ∧
      jsonGet (send_command_request command device_info ts credentials).query_params "mid" =
        some device_info.get_class ∧
      jsonGet (send_command_request command device_info ts credentials).query_params "did" =
        some device_info.did) := by
  by_cases h : command.name = GetCleanLogs_name
  · rw [send_command_request_log_eq command device_info ts credentials h]
    exact ⟨rfl, rfl, rfl, rfl, fun _ => ⟨rfl, rfl, rfl⟩, fun hn => absurd h hn⟩
  · obtain ⟨pl, heq, _, _, _⟩ :=
      send_command_request_generic_eq command device_info ts credentials h
    rw [heq]
    exact ⟨rfl, rfl, rfl, rfl, fun hl => absurd hl h, fun _ => ⟨rfl, rfl, rfl⟩⟩

/-- Witness for C5: the query parameters at concrete inputs for both
branches. -/
theorem c5_query_params_witness :
    jsonGet (send_command_request (Command.mk "GetCleanLogs" []) (DeviceInfo.mk [])
      Json.null (Credentials.mk "U")).query_params "u" = some (Json.str "U") ∧
    jsonGet (send_command_request (Command.mk "GetCleanLogs" []) (DeviceInfo.mk [])
      Json.null (Credentials.mk "U")).query_params "td" = some (Json.str "GetCleanLogs") ∧
    jsonGet (send_command_request (Command.mk "GetCleanLogs" []) (DeviceInfo.mk [])
      Json.null (Credentials.mk "U")).query_params "mid" = none ∧
    jsonGet (send_command_request (Command.mk "Clean" [])
      (DeviceInfo.mk [("did", Json.str "D"), ("class", Json.str "K")])
      Json.null (Credentials.mk "U")).query_params "td" = some (Json.str "q") ∧
    jsonGet (send_command_request (Command.mk "Clean" [])
      (DeviceInfo.mk [("did", Json.str "D"), ("class", Json.str "K")])
      Json.null (Credentials.mk "U")).query_params "cv" = some (Json.str "1.67.3") ∧
    jsonGet (send_command_request (Command.mk "Clean" [])
      (DeviceInfo.mk [("did", Json.str "D"), ("class", Json.str "K")])
      Json.null (Credentials.mk "U")).query_params "mid" = some (Json.str "K") := by
  have h1 := c5_query_params (Command.mk "GetCleanLogs" []) (DeviceInfo.mk [])
    Json.null (Credentials.mk "U")
  have h2 := c5_query_params (Command.mk "Clean" [])
    (DeviceInfo.mk [("did", Json.str "D"), ("class", Json.str "K")])
    Json.null (Credentials.mk "U")
  obtain ⟨hu, _, _, _, hlog, _⟩ := h1
  obtain ⟨htd, hmid, _⟩ := hlog rfl
  obtain ⟨_, hcv, _, _, _, hgen⟩ := h2
  obtain ⟨htd2, hmid2, _⟩ := hgen (by decide)
  exact ⟨hu, htd, hmid, htd2, hcv, hmid2⟩

/-- Dropping the last segment of a base URL that ends in a slash leaves the
base unchanged. -/
theorem dropLastSegment_slash (s : String) : dropLastSegment (s ++ "/") = s ++ "/" := by
  unfold dropLastSegment
  have h1 : (s ++ "/").data = s.data ++ ['/'] := String.data_append s "/"
  rw [h1, List.reverse_append]
  simp [List.dropWhile]
  rw [← h1]

/-- Join with a plain relative reference against a base ending in a slash
is plain concatenation. -/
theorem urljoin_relative (base path : String) (h1 : hasScheme path = false)
    (h2 : charsStartWith path.data "/".data = false) :
    urljoin (base ++ "/") path = base ++ "/" ++ path := by
  by_cases hp : path = ""
  · subst hp
    simp [urljoin, String.append_empty]
  · unfold urljoin
    rw [if_neg hp, if_neg (by simp [h1]), if_neg (by simp [h2]), dropLastSegment_slash]

/-- Claim C9: the portal URL resolver is a total function that yields host
portal.ecouser.net for country cn and host portal dash continent dot
ecouser.net otherwise, with the path joined to the https base under /api/
by URL join semantics (for a relative path, appended after the trailing
slash of the base). -/
theorem c9_portal_url (config : Configuration) (path : String)
    (h1 : hasScheme path = false)
    (h2 : charsStartWith path.data "/".data = false) :
    (config.country = "cn" →
      _get_portal_url config path = "https://portal.ecouser.net/api/" ++ path) ∧
    (config.country ≠ "cn" →
      _get_portal_url config path =
        "https://" ++ ("portal-" ++ config.continent) ++ ".ecouser.net/api/" ++ path) := by
  constructor
  · intro hc
    unfold _get_portal_url
    rw [if_neg (by simp [hc])]
    have hb : ("https://" ++ "portal" ++ ".ecouser.net/api/") =
        "https://portal.ecouser.net/api" ++ "/" := rfl
    rw [hb, urljoin_relative _ path h1 h2]
    rfl
  · intro hc
    unfold _get_portal_url
    rw [if_pos hc]
    have hb : ("https://" ++ ("portal-" ++ config.continent) ++ ".ecouser.net/api/") =
        ("https://" ++ ("portal-" ++ config.continent) ++ ".ecouser.net/api") ++ "/" := by
      simp [String.append_assoc]
    rw [hb, urljoin_relative _ path h1 h2, ← hb]

/-- Witness for C9: the two scenarios of the spec, country us with
continent na and country cn, at a concrete relative path. -/
theorem c9_portal_url_witness :
    _get_portal_url (Configuration.mk "na" "us") "appsvr/app.do" =
      "https://portal-na.ecouser.net/api/appsvr/app.do" ∧
    _get_portal_url (Configuration.mk "eu" "cn") "appsvr/app.do" =
      "https://portal.ecouser.net/api/appsvr/app.do" := by
  constructor
  · have h := (c9_portal_url (Configuration.mk "na" "us") "appsvr/app.do"
      (by decide) (by decide)).2 (by decide)
    rw [h]
    decide
  · have h := (c9_portal_url (Configuration.mk "eu" "cn") "appsvr/app.do"
      (by decide) (by decide)).1 rfl
    rw [h]
    rfl

end DeebotClient
